import Mathlib

/-!
Shallow embedding of the domain core of the template-sqlc repository
(entities, converters, events, user service), with theorems checking the
specification's claims against the embedded code.

Conventions of the embedding:
* Go `time.Time` instants are modelled as integers (`GoTime`); the zero
  value of `time.Time` is the integer 0.  `t.After(u)` is `u < t`.
* Go `(value, error)` returns are modelled with `Except`; a non-nil Go
  error is `.error`, a nil error is `.ok`.
* Go `interface{}` values that cross the converter boundary are modelled
  by the inductive `GoValue`, one constructor per dynamic type the
  converters inspect.
* Go strings are Lean `String`s; `len` on a Go string is the UTF-8 byte
  length, modelled by `goLen`.
-/

/-- Go `time.Time`, abstracted to an instant on an integer timeline
(nanoseconds).  The zero value is `0`. -/
abbrev GoTime := Int

/-- The closed domain error taxonomy of `internal/domain/entities/errors.go`.
`wrapped` models service-layer `fmt.Errorf("...: %w", err)` wrapping. -/
inductive DomainError where
  | validation (field message : String)
  | notFound (resource message : String)
  | conflict (resource message : String)
  | authentication (message : String)
  | authorization (message : String)
  | internalErr (message : String)
  | wrapped (context : String) (cause : DomainError)
deriving DecidableEq, Repr

namespace DomainError

def isAuthorization : DomainError → Bool
  | .authorization _ => true
  | _ => false

def isAuthentication : DomainError → Bool
  | .authentication _ => true
  | _ => false

def isValidation : DomainError → Bool
  | .validation _ _ => true
  | _ => false

end DomainError

/-- `ErrInvalidEmail` from errors.go. -/
def ErrInvalidEmail : DomainError := .validation "email" "must be a valid email address"
/-- `ErrInvalidUsername` from errors.go. -/
def ErrInvalidUsername : DomainError := .validation "username" "must be 3-50 characters"
/-- `ErrInvalidPasswordHash` from errors.go. -/
def ErrInvalidPasswordHash : DomainError := .validation "password_hash" "must be a valid hash"
/-- `ErrInvalidFirstName` from errors.go. -/
def ErrInvalidFirstName : DomainError := .validation "first_name" "must not be empty"
/-- `ErrInvalidLastName` from errors.go. -/
def ErrInvalidLastName : DomainError := .validation "last_name" "must not be empty"
/-- `ErrInvalidUserStatus` from errors.go. -/
def ErrInvalidUserStatus : DomainError := .validation "status" "must be a valid user status"
/-- `ErrInvalidUserRole` from errors.go. -/
def ErrInvalidUserRole : DomainError := .validation "role" "must be a valid user role"
/-- `ErrUserAlreadyExists` from errors.go. -/
def ErrUserAlreadyExists : DomainError := .conflict "user" "user already exists"
/-- `ErrInvalidCredentials` from errors.go. -/
def ErrInvalidCredentials : DomainError := .authentication "invalid credentials"
/-- `ErrAccountSuspended` from errors.go. -/
def ErrAccountSuspended : DomainError := .authorization "account suspended"
/-- `ErrAccountInactive` from errors.go. -/
def ErrAccountInactive : DomainError := .authorization "account inactive"

/-! ## Go string helpers -/

/-- Whitespace in the sense of Go's `unicode.IsSpace`, restricted to the
Latin-1 range it lists: `\t \n \v \f \r ' '` plus U+0085 and U+00A0. -/
def goIsSpace (c : Char) : Bool :=
  c = ' ' || c = '\t' || c = '\n' || c = Char.ofNat 11 || c = Char.ofNat 12 ||
  c = '\r' || c = Char.ofNat 0x85 || c = Char.ofNat 0xA0

/-- Go `strings.TrimSpace`: drop leading and trailing whitespace. -/
def goTrimSpace (s : String) : String :=
  String.mk (((s.toList.dropWhile goIsSpace).reverse.dropWhile goIsSpace).reverse)

/-- Go `strings.ToLower` on the characters of the string (ASCII case map;
the repository's strings are ASCII). -/
def goToLower (s : String) : String :=
  String.mk (s.toList.map Char.toLower)

/-- UTF-8 byte length of a character list, matching Go's `len` on strings. -/
def utf8Len : List Char → Nat
  | [] => 0
  | c :: cs => c.utf8Size + utf8Len cs

/-- Go `len(s)` for a string: its UTF-8 byte count. -/
def goLen (s : String) : Nat := utf8Len s.toList

/-! ## UUIDs (github.com/google/uuid as used by the repository) -/

/-- A UUID: 16 bytes, as in `github.com/google/uuid`. -/
structure UUID where
  b0 : Fin 256
  b1 : Fin 256
  b2 : Fin 256
  b3 : Fin 256
  b4 : Fin 256
  b5 : Fin 256
  b6 : Fin 256
  b7 : Fin 256
  b8 : Fin 256
  b9 : Fin 256
  b10 : Fin 256
  b11 : Fin 256
  b12 : Fin 256
  b13 : Fin 256
  b14 : Fin 256
  b15 : Fin 256
deriving DecidableEq, Repr

/-- `uuid.Nil`: the all-zero UUID. -/
def uuidNil : UUID := ⟨0, 0, 0, 0, 0, 0, 0, 0, 0, 0, 0, 0, 0, 0, 0, 0⟩

/-- `u[:]`: the 16 bytes of a UUID in order. -/
def UUID.toBytes (u : UUID) : List (Fin 256) :=
  [u.b0, u.b1, u.b2, u.b3, u.b4, u.b5, u.b6, u.b7,
   u.b8, u.b9, u.b10, u.b11, u.b12, u.b13, u.b14, u.b15]

/-- `uuid.FromBytes`: succeeds exactly on 16-byte input, copying the bytes. -/
def uuidFromBytes : List (Fin 256) → Option UUID
  | [x0, x1, x2, x3, x4, x5, x6, x7, x8, x9, x10, x11, x12, x13, x14, x15] =>
      some ⟨x0, x1, x2, x3, x4, x5, x6, x7, x8, x9, x10, x11, x12, x13, x14, x15⟩
  | _ => none

/-- Lowercase hex digit for a value below 16 (as in uuid's encodeHex). -/
def hexDigit (n : Nat) : Char :=
  if n < 10 then Char.ofNat (48 + n) else Char.ofNat (87 + n)

/-- High hex digit of a byte. -/
def hexHi (b : Fin 256) : Char := hexDigit (b.val / 16)

/-- Low hex digit of a byte. -/
def hexLo (b : Fin 256) : Char := hexDigit (b.val % 16)

/-- `uuid.UUID.String()`: canonical lowercase hyphenated form
`xxxxxxxx-xxxx-xxxx-xxxx-xxxxxxxxxxxx`, as a character list. -/
def uuidStringChars (u : UUID) : List Char :=
  [hexHi u.b0, hexLo u.b0, hexHi u.b1, hexLo u.b1,
   hexHi u.b2, hexLo u.b2, hexHi u.b3, hexLo u.b3, '-',
   hexHi u.b4, hexLo u.b4, hexHi u.b5, hexLo u.b5, '-',
   hexHi u.b6, hexLo u.b6, hexHi u.b7, hexLo u.b7, '-',
   hexHi u.b8, hexLo u.b8, hexHi u.b9, hexLo u.b9, '-',
   hexHi u.b10, hexLo u.b10, hexHi u.b11, hexLo u.b11,
   hexHi u.b12, hexLo u.b12, hexHi u.b13, hexLo u.b13,
   hexHi u.b14, hexLo u.b14, hexHi u.b15, hexLo u.b15]

/-- `uuid.UUID.String()` as a Lean string. -/
def uuidToString (u : UUID) : String := String.mk (uuidStringChars u)

/-- uuid's `xvalues` table: value of a hex character, 255 when invalid. -/
def xvalue (c : Char) : Nat :=
  if '0' ≤ c ∧ c ≤ '9' then c.toNat - 48
  else if 'a' ≤ c ∧ c ≤ 'f' then c.toNat - 87
  else if 'A' ≤ c ∧ c ≤ 'F' then c.toNat - 55
  else 255

/-- uuid's `xtob`: decode two hex characters into a byte. -/
def xtob (c1 c2 : Char) : Option (Fin 256) :=
  if h : xvalue c1 < 16 ∧ xvalue c2 < 16 then
    some ⟨xvalue c1 * 16 + xvalue c2, by omega⟩
  else none

/-- Decode a character list as consecutive hex pairs. -/
def bytesOfPairs : List Char → Option (List (Fin 256))
  | [] => some []
  | c1 :: c2 :: rest =>
      match xtob c1 c2, bytesOfPairs rest with
      | some b, some bs => some (b :: bs)
      | _, _ => none
  | _ => none

/-- The hyphenated 36-character core of `uuid.Parse`: checks the four
hyphens and hex-decodes the 16 byte groups (extra trailing characters are
ignored, as in the `{...}` branch of the Go code). -/
def uuidParse36 : List Char → Option UUID
  | c0 :: c1 :: c2 :: c3 :: c4 :: c5 :: c6 :: c7 :: d1 ::
    c8 :: c9 :: c10 :: c11 :: d2 ::
    c12 :: c13 :: c14 :: c15 :: d3 ::
    c16 :: c17 :: c18 :: c19 :: d4 ::
    c20 :: c21 :: c22 :: c23 :: c24 :: c25 :: c26 :: c27 ::
    c28 :: c29 :: c30 :: c31 :: _ =>
      if d1 = '-' ∧ d2 = '-' ∧ d3 = '-' ∧ d4 = '-' then
        match bytesOfPairs [c0, c1, c2, c3, c4, c5, c6, c7,
                            c8, c9, c10, c11, c12, c13, c14, c15,
                            c16, c17, c18, c19, c20, c21, c22, c23,
                            c24, c25, c26, c27, c28, c29, c30, c31] with
        | some [x0, x1, x2, x3, x4, x5, x6, x7,
                x8, x9, x10, x11, x12, x13, x14, x15] =>
            some ⟨x0, x1, x2, x3, x4, x5, x6, x7,
                  x8, x9, x10, x11, x12, x13, x14, x15⟩
        | _ => none
      else none
  | _ => none

/-- `uuid.Parse`: dispatch on length — canonical 36, `urn:uuid:` + 36,
braced 38 (Go only skips the first character), and 32 hex chars. -/
def uuidParse (s : String) : Option UUID :=
  let cs := s.toList
  if cs.length = 36 then uuidParse36 cs
  else if cs.length = 45 then
    if (cs.take 9).map Char.toLower = "urn:uuid:".toList then uuidParse36 (cs.drop 9)
    else none
  else if cs.length = 38 then uuidParse36 (cs.drop 1)
  else if cs.length = 32 then
    match bytesOfPairs cs with
    | some [x0, x1, x2, x3, x4, x5, x6, x7,
            x8, x9, x10, x11, x12, x13, x14, x15] =>
        some ⟨x0, x1, x2, x3, x4, x5, x6, x7,
              x8, x9, x10, x11, x12, x13, x14, x15⟩
    | _ => none
  else none

/-! ## User status and role enums (entities/user.go) -/

/-- `type UserStatus string`. -/
abbrev UserStatus := String

/-- `UserStatusActive`. -/
def UserStatusActive : UserStatus := "active"
/-- `UserStatusInactive`. -/
def UserStatusInactive : UserStatus := "inactive"
/-- `UserStatusSuspended`. -/
def UserStatusSuspended : UserStatus := "suspended"
/-- `UserStatusPending`. -/
def UserStatusPending : UserStatus := "pending"

/-- `UserStatus.IsValid()`: closed-set membership over the four constants. -/
def UserStatus.IsValid (s : UserStatus) : Bool :=
  s = UserStatusActive || s = UserStatusInactive ||
  s = UserStatusSuspended || s = UserStatusPending

/-- `type UserRole string`. -/
abbrev UserRole := String

/-- `UserRoleUser`. -/
def UserRoleUser : UserRole := "user"
/-- `UserRoleAdmin`. -/
def UserRoleAdmin : UserRole := "admin"
/-- `UserRoleModerator`. -/
def UserRoleModerator : UserRole := "moderator"

/-- `UserRole.IsValid()`: closed-set membership over the three constants. -/
def UserRole.IsValid (r : UserRole) : Bool :=
  r = UserRoleUser || r = UserRoleAdmin || r = UserRoleModerator

/-! ## Value objects (entities/user.go) -/

/-- Modelled from the spec: `NewEmail` calls `isValidEmail`, whose definition
is not among the repository sources; the spec describes it as "a standard
email-shape check".  Modelled as: the string contains exactly one `@` with a
non-empty local part before it, the domain after it is non-empty, contains a
dot that is neither its first nor its last character, and no character of the
string is whitespace. -/
def isValidEmail (s : String) : Bool :=
  let cs := s.toList
  let localPart := cs.takeWhile (fun c => c != '@')
  match cs.dropWhile (fun c => c != '@') with
  | [] => false
  | _ :: domain =>
      !localPart.isEmpty && !domain.isEmpty &&
      localPart.all (fun c => !goIsSpace c) &&
      domain.all (fun c => c != '@' && !goIsSpace c) &&
      domain.contains '.' &&
      domain.head? != some '.' && domain.getLast? != some '.'

/-- `NewEmail`: validate the shape, then normalize by trim + lowercase. -/
def NewEmail (email : String) : Except DomainError String :=
  if !isValidEmail email then .error ErrInvalidEmail
  else .ok (goToLower (goTrimSpace email))

/-- `NewUsername`: reject byte length outside [3,50], then trim. -/
def NewUsername (username : String) : Except DomainError String :=
  if goLen username < 3 || goLen username > 50 then .error ErrInvalidUsername
  else .ok (goTrimSpace username)

/-- `NewPasswordHash`: reject byte length below 32. -/
def NewPasswordHash (hash : String) : Except DomainError String :=
  if goLen hash < 32 then .error ErrInvalidPasswordHash
  else .ok hash

/-- `NewFirstName`: trim, reject empty. -/
def NewFirstName (name : String) : Except DomainError String :=
  let name := goTrimSpace name
  if goLen name = 0 then .error ErrInvalidFirstName
  else .ok name

/-- `NewLastName`: trim, reject empty. -/
def NewLastName (name : String) : Except DomainError String :=
  let name := goTrimSpace name
  if goLen name = 0 then .error ErrInvalidLastName
  else .ok name

/-! ## Type converters (internal/adapters/converters/types.go) -/

/-- A Go `interface{}` value at the converter boundary: one constructor per
dynamic type the converters produce or inspect. -/
inductive GoValue where
  | null
  | str (s : String)
  | bytes (bs : List (Fin 256))
  | uuidV (u : UUID)
  | timeV (t : GoTime)
  | boolV (b : Bool)
  | int64V (n : Int)
  | intV (n : Int)
deriving DecidableEq, Repr

/-- `ConversionError` from types.go: a message plus the offending value. -/
structure ConversionError where
  message : String
  value : GoValue
deriving DecidableEq, Repr

/-- `SQLiteUUIDConverter.DomainToDB`: `uuid.Nil` becomes NULL, otherwise the
canonical string form. -/
def SQLiteUUIDConverter.DomainToDB (domain : UUID) : GoValue :=
  if domain = uuidNil then .null else .str (uuidToString domain)

/-- `SQLiteUUIDConverter.DBToDomain`: NULL gives `uuid.Nil`; a string is
parsed; any other dynamic type is a `ConversionError`. -/
def SQLiteUUIDConverter.DBToDomain : GoValue → Except ConversionError UUID
  | .null => .ok uuidNil
  | .str s =>
      match uuidParse s with
      | some u => .ok u
      | none => .error ⟨"invalid UUID format", .str s⟩
  | v => .error ⟨"expected string for UUID", v⟩

/-- `PostgresUUIDConverter.DomainToDB`: pass-through (native UUID). -/
def PostgresUUIDConverter.DomainToDB (domain : UUID) : GoValue := .uuidV domain

/-- `PostgresUUIDConverter.DBToDomain`: NULL, native UUID, or string. -/
def PostgresUUIDConverter.DBToDomain : GoValue → Except ConversionError UUID
  | .null => .ok uuidNil
  | .uuidV u => .ok u
  | .str s =>
      match uuidParse s with
      | some u => .ok u
      | none => .error ⟨"invalid UUID format", .str s⟩
  | v => .error ⟨"expected UUID or string", v⟩

/-- `MySQLUUIDConverter.DomainToDB`: the 16 raw bytes (`domain[:]`). -/
def MySQLUUIDConverter.DomainToDB (domain : UUID) : GoValue := .bytes domain.toBytes

/-- `MySQLUUIDConverter.DBToDomain`: NULL, byte slice via `uuid.FromBytes`,
or string via `uuid.Parse`. -/
def MySQLUUIDConverter.DBToDomain : GoValue → Except ConversionError UUID
  | .null => .ok uuidNil
  | .bytes bs =>
      match uuidFromBytes bs with
      | some u => .ok u
      | none => .error ⟨"invalid UUID length", .bytes bs⟩
  | .str s =>
      match uuidParse s with
      | some u => .ok u
      | none => .error ⟨"invalid UUID format", .str s⟩
  | v => .error ⟨"expected bytes or string for UUID", v⟩

/-- `SQLiteTimeConverter.DomainToDB`: the zero time becomes NULL. -/
def SQLiteTimeConverter.DomainToDB (domain : GoTime) : GoValue :=
  if domain = 0 then .null else .timeV domain

/-- `SQLiteTimeConverter.DBToDomain`.  The string branch delegates to Go's
`time.Parse(time.RFC3339, s)`, a standard-library function whose calendar
semantics are outside this embedding; it is taken as a parameter, so every
theorem about the converter holds for any such parser. -/
def SQLiteTimeConverter.DBToDomain
    (parseRFC3339 : String → Except ConversionError GoTime) :
    GoValue → Except ConversionError GoTime
  | .null => .ok 0
  | .timeV t => .ok t
  | .str s => parseRFC3339 s
  | v => .error ⟨"expected time or string", v⟩

/-- `SQLiteBoolConverter.DomainToDB`: pass-through. -/
def SQLiteBoolConverter.DomainToDB (domain : Bool) : GoValue := .boolV domain

/-- `SQLiteBoolConverter.DBToDomain`: NULL is false; bool passes through;
ints are compared with 0; strings accept "true"/"1". -/
def SQLiteBoolConverter.DBToDomain : GoValue → Except ConversionError Bool
  | .null => .ok false
  | .boolV v => .ok v
  | .int64V v => .ok (v != 0)
  | .intV v => .ok (v != 0)
  | .str v => .ok (v == "true" || v == "1")
  | v => .error ⟨"expected bool, int, or string", v⟩

/-- `DefaultUserStatusConverter.DomainToDB`: the status string itself. -/
def DefaultUserStatusConverter.DomainToDB (domain : UserStatus) : String := domain

/-- `DefaultUserStatusConverter.DBToDomain`: validate the closed set, fail
with a `ConversionError` otherwise.  (The Go function returns the pair
`(UserStatusActive, err)` in the failing case; since the error is non-nil,
the value component is dead and the call fails.) -/
def DefaultUserStatusConverter.DBToDomain (db : String) : Except ConversionError UserStatus :=
  if UserStatus.IsValid db then .ok db
  else .error ⟨"invalid user status", .str db⟩

/-- `DefaultUserRoleConverter.DomainToDB`: the role string itself. -/
def DefaultUserRoleConverter.DomainToDB (domain : UserRole) : String := domain

/-- `DefaultUserRoleConverter.DBToDomain`: validate the closed set, fail
with a `ConversionError` otherwise.  (Go returns `(UserRoleUser, err)` in
the failing case; the error is non-nil, so the call fails.) -/
def DefaultUserRoleConverter.DBToDomain (db : String) : Except ConversionError UserRole :=
  if UserRole.IsValid db then .ok db
  else .error ⟨"invalid user role", .str db⟩

/-! ## User entity (entities/user.go) -/

/-- A field of a Go `map[string]interface{}` / change payload value.  Keys
are listed in insertion order; the converters and claims only inspect
emptiness and equality. -/
abbrev UserMetadata := List (String × GoValue)

/-- The `User` aggregate of entities/user.go.  Field names follow the Go
struct; the value-object wrappers are their underlying strings. -/
structure User where
  id : Int
  uuid : UUID
  email : String
  username : String
  password : String
  firstName : String
  lastName : String
  status : UserStatus
  role : UserRole
  isVerified : Bool
  metadata : UserMetadata
  tags : List String
  createdAt : GoTime
  updatedAt : GoTime
  lastLoginAt : Option GoTime
deriving DecidableEq, Repr

/-- `NewUser`: validates status and role, assigns a fresh UUID and the
current time; `id` stays at its zero value until persistence.  The fresh
UUID and `time.Now()` are passed explicitly. -/
def NewUser (email username password firstName lastName : String)
    (status : UserStatus) (role : UserRole) (metadata : UserMetadata)
    (tags : List String) (freshUUID : UUID) (now : GoTime) :
    Except DomainError User :=
  if !status.IsValid then .error ErrInvalidUserStatus
  else if !role.IsValid then .error ErrInvalidUserRole
  else .ok {
    id := 0
    uuid := freshUUID
    email := email
    username := username
    password := password
    firstName := firstName
    lastName := lastName
    status := status
    role := role
    isVerified := false
    metadata := metadata
    tags := tags
    createdAt := now
    updatedAt := now
    lastLoginAt := none }

/-- `User.IsActive()`: status equals `UserStatusActive`. -/
def User.IsActive (u : User) : Bool := u.status = UserStatusActive

/-- `User.UpdateProfile`: overwrite each field whose pointer argument is
non-nil, then bump `updatedAt`.  Always returns a nil error. -/
def User.UpdateProfile (u : User) (firstName lastName : Option String)
    (metadata : Option UserMetadata) (tags : Option (List String))
    (now : GoTime) : Option DomainError × User :=
  let u := match firstName with | some f => { u with firstName := f } | none => u
  let u := match lastName with | some l => { u with lastName := l } | none => u
  let u := match metadata with | some m => { u with metadata := m } | none => u
  let u := match tags with | some t => { u with tags := t } | none => u
  (none, { u with updatedAt := now })

/-- `User.ChangeStatus`: validate the target status; on success set it and
bump `updatedAt`, on failure return `ErrInvalidUserStatus` leaving the
receiver untouched. -/
def User.ChangeStatus (u : User) (status : UserStatus) (now : GoTime) :
    Option DomainError × User :=
  if !status.IsValid then (some ErrInvalidUserStatus, u)
  else (none, { u with status := status, updatedAt := now })

/-- `User.ChangeRole`: validate the target role; on success set it and bump
`updatedAt`, on failure return `ErrInvalidUserRole` leaving the receiver
untouched. -/
def User.ChangeRole (u : User) (role : UserRole) (now : GoTime) :
    Option DomainError × User :=
  if !role.IsValid then (some ErrInvalidUserRole, u)
  else (none, { u with role := role, updatedAt := now })

/-- `User.Verify`: set `isVerified` and bump `updatedAt`. -/
def User.Verify (u : User) (now : GoTime) : User :=
  { u with isVerified := true, updatedAt := now }

/-- `User.RecordLogin`: set `lastLoginAt` and `updatedAt` to now. -/
def User.RecordLogin (u : User) (now : GoTime) : User :=
  { u with lastLoginAt := some now, updatedAt := now }

/-- `User.AddTag`: append the tag and bump `updatedAt` unless it is already
present, in which case the user is returned unchanged. -/
def User.AddTag (u : User) (tag : String) (now : GoTime) : User :=
  if u.tags.contains tag then u
  else { u with tags := u.tags ++ [tag], updatedAt := now }

/-- Remove the first occurrence of an element from a list. -/
def removeFirst : List String → String → List String
  | [], _ => []
  | x :: xs, tag => if x = tag then xs else x :: removeFirst xs tag

/-- `User.RemoveTag`: drop the first occurrence of the tag and bump
`updatedAt`; if the tag is absent the user is returned unchanged. -/
def User.RemoveTag (u : User) (tag : String) (now : GoTime) : User :=
  if u.tags.contains tag then
    { u with tags := removeFirst u.tags tag, updatedAt := now }
  else u

/-! ## UserSession entity (session entity file) -/

/-- `SessionDeviceInfo`. -/
structure SessionDeviceInfo where
  platform : String
  device : String
  browser : String
  version : String
  metadata : List (String × GoValue)
deriving DecidableEq, Repr

/-- `NewSessionDeviceInfo`: zero strings, empty metadata map. -/
def NewSessionDeviceInfo : SessionDeviceInfo :=
  ⟨"", "", "", "", []⟩

/-- `SessionDeviceInfo.SetMetadata`.  (Go maps: the new binding shadows any
previous one; keys here are appended, lookups take the last binding.) -/
def SessionDeviceInfo.SetMetadata (d : SessionDeviceInfo) (key : String)
    (value : GoValue) : SessionDeviceInfo :=
  { d with metadata := d.metadata ++ [(key, value)] }

/-- The `UserSession` entity.  `ipAddress` keeps the textual address the Go
code feeds to `net.ParseIP`; no claim inspects its byte representation. -/
structure UserSession where
  id : Int
  userID : Int
  token : UUID
  deviceInfo : SessionDeviceInfo
  ipAddress : String
  userAgent : String
  createdAt : GoTime
  expiresAt : GoTime
  isActive : Bool
deriving DecidableEq, Repr

/-- `NewUserSession`: fresh token (passed explicitly), `createdAt = now`,
`expiresAt = now + duration`, active; `id` stays at its zero value. -/
def NewUserSessionAt (userID : Int) (ipAddress userAgent : String)
    (deviceInfo : SessionDeviceInfo) (duration : Int) (now : GoTime)
    (freshToken : UUID) : UserSession :=
  { id := 0
    userID := userID
    token := freshToken
    deviceInfo := deviceInfo
    ipAddress := ipAddress
    userAgent := userAgent
    createdAt := now
    expiresAt := now + duration
    isActive := true }

/-- `UserSession.IsExpired()`: `time.Now().After(expiresAt)`, i.e. the
current instant is strictly after the expiry. -/
def UserSession.IsExpired (s : UserSession) (now : GoTime) : Bool :=
  s.expiresAt < now

/-- `UserSession.IsValid()`: active and not expired. -/
def UserSession.IsValid (s : UserSession) (now : GoTime) : Bool :=
  s.isActive && !(s.IsExpired now)

/-- `UserSession.Deactivate()`: clear `isActive`. -/
def UserSession.Deactivate (s : UserSession) : UserSession :=
  { s with isActive := false }

/-- `UserSession.Extend(duration)`: `expiresAt = time.Now().Add(duration)`. -/
def UserSession.Extend (s : UserSession) (duration : Int) (now : GoTime) : UserSession :=
  { s with expiresAt := now + duration }

/-- `SessionDurationShort` = 24h in nanoseconds. -/
def SessionDurationShort : Int := 24 * 3600 * 1000000000
/-- `SessionDurationMedium` = 7 days in nanoseconds. -/
def SessionDurationMedium : Int := 7 * 24 * 3600 * 1000000000
/-- `SessionDurationLong` = 30 days in nanoseconds. -/
def SessionDurationLong : Int := 30 * 24 * 3600 * 1000000000
/-- `SessionDurationRemember` = 90 days in nanoseconds. -/
def SessionDurationRemember : Int := 90 * 24 * 3600 * 1000000000

/-! ## Domain events (events package) -/

/-- One entry of a `UserUpdated` change map: old and new value of a field,
in the three shapes the service records. -/
inductive ChangeRec where
  | strChange (old new : String)
  | metaChange (old new : UserMetadata)
  | tagsChange (old new : List String)
deriving DecidableEq, Repr

/-- Payload of a domain event (`Data interface{}` in Go), one constructor
per event-data struct. -/
inductive EventData where
  | userCreatedD (userID email username firstName lastName role status : String)
  | userUpdatedD (userID : String) (changes : List (String × ChangeRec)) (updatedBy : String)
  | userLoginD (userID ipAddress userAgent device : String) (success : Bool)
  | userVerifiedD (userID method : String) (timestamp : GoTime)
  | roleChangedD (userID oldRole newRole changedBy : String)
deriving DecidableEq, Repr

/-- `UserEvent`: id, type, user id, payload, timestamp, version. -/
structure UserEvent where
  id : String
  type : String
  userID : String
  data : EventData
  timestamp : GoTime
  version : String
deriving DecidableEq, Repr

/-- `NewUserEvent`: fresh UUID string and `time.Now()` passed explicitly;
version is `"1.0"`. -/
def NewUserEvent (freshId : String) (now : GoTime) (eventType : String)
    (userID : String) (data : EventData) : UserEvent :=
  { id := freshId, type := eventType, userID := userID, data := data,
    timestamp := now, version := "1.0" }

/-- `events.UserCreated`. -/
def EventsUserCreated (freshId : String) (now : GoTime)
    (userID email username firstName lastName role status : String) : UserEvent :=
  NewUserEvent freshId now "user.created" userID
    (.userCreatedD userID email username firstName lastName role status)

/-- `events.UserUpdated`. -/
def EventsUserUpdated (freshId : String) (now : GoTime) (userID : String)
    (changes : List (String × ChangeRec)) (updatedBy : String) : UserEvent :=
  NewUserEvent freshId now "user.updated" userID
    (.userUpdatedD userID changes updatedBy)

/-- `events.UserLoggedIn`. -/
def EventsUserLoggedIn (freshId : String) (now : GoTime)
    (userID ipAddress userAgent device : String) : UserEvent :=
  NewUserEvent freshId now "user.login" userID
    (.userLoginD userID ipAddress userAgent device true)

/-- `events.UserLoginFailed`. -/
def EventsUserLoginFailed (freshId : String) (now : GoTime)
    (userID ipAddress userAgent device : String) : UserEvent :=
  NewUserEvent freshId now "user.login.failed" userID
    (.userLoginD userID ipAddress userAgent device false)

/-- `events.RoleChanged`. -/
def EventsRoleChanged (freshId : String) (now : GoTime)
    (userID oldRole newRole changedBy : String) : UserEvent :=
  NewUserEvent freshId now "role.changed" userID
    (.roleChangedD userID oldRole newRole changedBy)

/-! ## In-memory event publisher -/

/-- `InMemoryEventPublisher`: an in-process slice of events. -/
structure InMemoryEventPublisher where
  events : List UserEvent
deriving DecidableEq, Repr

/-- `NewInMemoryEventPublisher`: empty slice. -/
def NewInMemoryEventPublisher : InMemoryEventPublisher := ⟨[]⟩

/-- `Publish`: append one event; always returns a nil error. -/
def InMemoryEventPublisher.Publish (p : InMemoryEventPublisher)
    (event : UserEvent) : InMemoryEventPublisher × Option DomainError :=
  (⟨p.events ++ [event]⟩, none)

/-- `PublishBatch`: append a slice of events; always returns a nil error. -/
def InMemoryEventPublisher.PublishBatch (p : InMemoryEventPublisher)
    (events : List UserEvent) : InMemoryEventPublisher × Option DomainError :=
  (⟨p.events ++ events⟩, none)

/-- `Events()`: the accumulated slice. -/
def InMemoryEventPublisher.Events (p : InMemoryEventPublisher) : List UserEvent :=
  p.events

/-- One call against the publisher interface. -/
inductive PubOp where
  | pub (e : UserEvent)
  | pubBatch (es : List UserEvent)

/-- Run a sequence of publisher calls, collecting the returned errors. -/
def runPubOps (p : InMemoryEventPublisher) :
    List PubOp → InMemoryEventPublisher × List (Option DomainError)
  | [] => (p, [])
  | .pub e :: rest =>
      let (p, r) := p.Publish e
      let (pend, rs) := runPubOps p rest
      (pend, r :: rs)
  | .pubBatch es :: rest =>
      let (p, r) := p.PublishBatch es
      let (pend, rs) := runPubOps p rest
      (pend, r :: rs)

/-- The events a sequence of publisher calls submits, in order. -/
def pubOpsEvents : List PubOp → List UserEvent
  | [] => []
  | .pub e :: rest => e :: pubOpsEvents rest
  | .pubBatch es :: rest => es ++ pubOpsEvents rest

/-! ## Domain service (services/user_service.go)

The service depends on the repository interfaces and the validator; those
collaborators are passed as records of functions.  Side effects other than
the return value (events handed to the publisher, sessions handed to
`SessionRepository.Create`, users handed to `UserRepository.Update`) are
collected in a `ServiceEffects` record.  Nondeterministic inputs
(`time.Now()`, fresh UUIDs) are explicit parameters. -/

/-- `UserRepository` as consumed by the service.  `create` returns the
stored user, modelling the in-place assignment of identity through the
`*User` pointer. -/
structure UserRepo where
  getByEmail : String → Except DomainError User
  getByUsername : String → Except DomainError User
  getByID : Int → Except DomainError User
  create : User → Except DomainError User
  update : User → Except DomainError Unit
  verifyCredentials : String → String → Except DomainError User

/-- `SessionRepository` as consumed by the service. -/
structure SessionRepo where
  create : UserSession → Except DomainError Unit

/-- The `UserValidator` interface. -/
structure UserValidator where
  validateUserCreate : String → String → String → String → Option DomainError
  validateUserUpdate : User → Option DomainError

/-- Observable side effects of one service call: events submitted to the
publisher, sessions submitted to `SessionRepository.Create`, and users
submitted to `UserRepository.Update`, each in call order. -/
structure ServiceEffects where
  events : List UserEvent
  sessionCreates : List UserSession
  userUpdates : List User
deriving DecidableEq, Repr

/-- A call that performed none of the recorded effects. -/
def noEffects : ServiceEffects := ⟨[], [], []⟩

/-- `CreateUserRequest`. -/
structure CreateUserRequest where
  email : String
  username : String
  passwordHash : String
  firstName : String
  lastName : String
  status : String
  role : String
  tags : List String
  metadata : UserMetadata
deriving Repr

/-- `UpdateUserRequest` (optional-field update). -/
structure UpdateUserRequest where
  userID : Int
  firstName : Option String
  lastName : Option String
  metadata : Option UserMetadata
  tags : Option (List String)
  updatedBy : String
deriving Repr

/-- `UserService.CreateUser`: validate, pre-check both unique fields,
construct the value objects and the entity, persist, publish one
`UserCreated` event (publish failure is logged and swallowed, which the
in-memory publisher never exercises). -/
def CreateUser (repo : UserRepo) (validator : UserValidator)
    (req : CreateUserRequest) (now : GoTime) (freshUUID : UUID)
    (freshEventId : String) : Except DomainError User × ServiceEffects :=
  match validator.validateUserCreate req.email req.username req.firstName req.lastName with
  | some e => (.error (.wrapped "validation failed" e), noEffects)
  | none =>
  match repo.getByEmail req.email with
  | .ok _ => (.error ErrUserAlreadyExists, noEffects)
  | .error _ =>
  match repo.getByUsername req.username with
  | .ok _ => (.error ErrUserAlreadyExists, noEffects)
  | .error _ =>
  match NewEmail req.email with
  | .error e => (.error (.wrapped "invalid email" e), noEffects)
  | .ok email =>
  match NewUsername req.username with
  | .error e => (.error (.wrapped "invalid username" e), noEffects)
  | .ok username =>
  match NewFirstName req.firstName with
  | .error e => (.error (.wrapped "invalid first name" e), noEffects)
  | .ok firstName =>
  match NewLastName req.lastName with
  | .error e => (.error (.wrapped "invalid last name" e), noEffects)
  | .ok lastName =>
  match NewPasswordHash req.passwordHash with
  | .error e => (.error (.wrapped "invalid password hash" e), noEffects)
  | .ok passwordHash =>
  match NewUser email username passwordHash firstName lastName
      req.status req.role [] req.tags freshUUID now with
  | .error e => (.error (.wrapped "failed to create user" e), noEffects)
  | .ok user =>
  match repo.create user with
  | .error e => (.error (.wrapped "failed to save user" e), noEffects)
  | .ok user =>
    let event := EventsUserCreated freshEventId now (uuidToString user.uuid)
        email username firstName lastName user.role user.status
    (.ok user, { noEffects with events := [event] })

/-- `UserService.UpdateUser`: load, apply each present optional field in
order while recording an old/new change entry, re-validate, persist, and
publish one `UserUpdated` event only when at least one field changed.
(The source's `UpdateProfile` calls spell only the first three arguments;
the elided trailing `tags` argument is nil.) -/
def UpdateUser (repo : UserRepo) (validator : UserValidator)
    (req : UpdateUserRequest) (now : GoTime) (freshEventId : String) :
    Except DomainError User × ServiceEffects :=
  match repo.getByID req.userID with
  | .error e => (.error (.wrapped "user not found" e), noEffects)
  | .ok user =>
  let step1 : Except DomainError (User × List (String × ChangeRec)) :=
    match req.firstName with
    | none => .ok (user, [])
    | some fn =>
        match NewFirstName fn with
        | .error e => .error (.wrapped "invalid first name" e)
        | .ok firstName =>
            let changes := [("first_name", ChangeRec.strChange user.firstName firstName)]
            .ok ((user.UpdateProfile (some firstName) none none none now).2, changes)
  match step1 with
  | .error e => (.error e, noEffects)
  | .ok (user, changes) =>
  let step2 : Except DomainError (User × List (String × ChangeRec)) :=
    match req.lastName with
    | none => .ok (user, changes)
    | some ln =>
        match NewLastName ln with
        | .error e => .error (.wrapped "invalid last name" e)
        | .ok lastName =>
            let changes := changes ++ [("last_name", ChangeRec.strChange user.lastName lastName)]
            .ok ((user.UpdateProfile none (some lastName) none none now).2, changes)
  match step2 with
  | .error e => (.error e, noEffects)
  | .ok (user, changes) =>
  let (user, changes) :=
    match req.metadata with
    | none => (user, changes)
    | some md =>
        let changes := changes ++ [("metadata", ChangeRec.metaChange user.metadata md)]
        ((user.UpdateProfile none none (some md) none now).2, changes)
  let (user, changes) :=
    match req.tags with
    | none => (user, changes)
    | some tg =>
        let changes := changes ++ [("tags", ChangeRec.tagsChange user.tags tg)]
        ((user.UpdateProfile none none none (some tg) now).2, changes)
  match validator.validateUserUpdate user with
  | some e => (.error (.wrapped "validation failed" e), noEffects)
  | none =>
  match repo.update user with
  | .error e => (.error (.wrapped "failed to update user" e),
      { noEffects with userUpdates := [user] })
  | .ok _ =>
    if changes.length > 0 then
      let event := EventsUserUpdated freshEventId now (uuidToString user.uuid)
          changes req.updatedBy
      (.ok user, { noEffects with events := [event], userUpdates := [user] })
    else
      (.ok user, { noEffects with userUpdates := [user] })

/-- `UserService.AuthenticateUser`: reject malformed email or failed
credential check with `ErrInvalidCredentials` (publishing `UserLoginFailed`
with reason `"unknown"` in the latter case); on a credential match against
a non-active account publish `UserLoginFailed` with reason
`"inactive_account"` and return `ErrAccountSuspended` or
`ErrAccountInactive`; otherwise create a medium-duration session, persist
it, best-effort record the login, and publish `UserLoggedIn`. -/
def AuthenticateUser (repo : UserRepo) (srepo : SessionRepo)
    (email password ipAddress userAgent : String) (now : GoTime)
    (freshEventId : String) (freshToken : UUID) :
    Except DomainError UserSession × ServiceEffects :=
  match NewEmail email with
  | .error _ => (.error ErrInvalidCredentials, noEffects)
  | .ok emailEntity =>
  match repo.verifyCredentials emailEntity password with
  | .error _ =>
      let event := EventsUserLoginFailed freshEventId now "" ipAddress userAgent "unknown"
      (.error ErrInvalidCredentials, { noEffects with events := [event] })
  | .ok user =>
  if !user.IsActive then
    let event := EventsUserLoginFailed freshEventId now (uuidToString user.uuid)
        ipAddress userAgent "inactive_account"
    if user.status = UserStatusSuspended then
      (.error ErrAccountSuspended, { noEffects with events := [event] })
    else
      (.error ErrAccountInactive, { noEffects with events := [event] })
  else
    let deviceInfo := NewSessionDeviceInfo.SetMetadata "user_agent" (.str userAgent)
    let session := NewUserSessionAt user.id ipAddress userAgent deviceInfo
        SessionDurationMedium now freshToken
    match srepo.create session with
    | .error e => (.error (.wrapped "failed to create session" e),
        { noEffects with sessionCreates := [session] })
    | .ok _ =>
      let user := user.RecordLogin now
      -- `repo.update` failure is logged and swallowed
      let _ := repo.update user
      let event := EventsUserLoggedIn freshEventId now (uuidToString user.uuid)
          ipAddress userAgent "unknown"
      (.ok session,
        { events := [event], sessionCreates := [session], userUpdates := [user] })

/-! ## Concrete fixtures used to instantiate the theorems -/

/-- A concrete active user. -/
def wUser : User :=
  { id := 1, uuid := uuidNil, email := "a@b.com", username := "alice",
    password := "p", firstName := "A", lastName := "B",
    status := UserStatusActive, role := UserRoleUser, isVerified := false,
    metadata := [], tags := ["x"], createdAt := 0, updatedAt := 0,
    lastLoginAt := none }

/-- The same user, suspended. -/
def wSuspendedUser : User := { wUser with status := UserStatusSuspended }

/-- A repository whose credential check accepts and returns the given user,
whose lookups miss, and whose writes succeed. -/
def wRepo (u : User) : UserRepo :=
  { getByEmail := fun _ => .error (.notFound "user" "user not found")
    getByUsername := fun _ => .error (.notFound "user" "user not found")
    getByID := fun _ => .ok u
    create := fun x => .ok x
    update := fun _ => .ok ()
    verifyCredentials := fun _ _ => .ok u }

/-- A repository whose credential check always fails. -/
def wFailRepo : UserRepo :=
  { wRepo wUser with verifyCredentials := fun _ _ => .error ErrInvalidCredentials }

/-- A session repository whose writes succeed. -/
def wSessionRepo : SessionRepo := { create := fun _ => .ok () }

/-- A validator that accepts everything. -/
def wValidator : UserValidator :=
  { validateUserCreate := fun _ _ _ _ => none
    validateUserUpdate := fun _ => none }

/-- A concrete 51-byte username whose trimmed form has 3 bytes. -/
def wLongUsername : String := String.mk ('a' :: 'b' :: 'c' :: List.replicate 48 ' ')

/-- A concrete valid create request. -/
def wCreateReq : CreateUserRequest :=
  ⟨"a@b.com", "alice", "0123456789abcdef0123456789abcdef", "A", "B",
   "active", "user", [], []⟩

/-- The entity `CreateUser` builds from `wCreateReq` at time 3 with a nil
fresh UUID. -/
def wCreatedUser : User :=
  { id := 0, uuid := uuidNil, email := "a@b.com", username := "alice",
    password := "0123456789abcdef0123456789abcdef", firstName := "A",
    lastName := "B", status := UserStatusActive, role := UserRoleUser,
    isVerified := false, metadata := [], tags := [], createdAt := 3,
    updatedAt := 3, lastLoginAt := none }

/-- The effects of that create call. -/
def wCreateEff : ServiceEffects :=
  { events := [EventsUserCreated "e2" 3 (uuidToString uuidNil) "a@b.com"
      "alice" "A" "B" "user" "active"],
    sessionCreates := [], userUpdates := [] }

/-- A concrete update request that sets no optional field. -/
def wUpdateReq : UpdateUserRequest := ⟨1, none, none, none, none, "admin"⟩

/-- The effects of that empty update call on `wUser`. -/
def wUpdateEff : ServiceEffects :=
  { events := [], sessionCreates := [], userUpdates := [wUser] }

/-- `xvalue` decodes the hex digit of any value below 16. -/
theorem xvalue_hexDigit : ∀ m : Fin 16, xvalue (hexDigit m.val) = m.val := by
  decide

/-- Each byte survives hex encoding followed by `xtob`. -/
theorem xtob_hex_roundtrip (b : Fin 256) : xtob (hexHi b) (hexLo b) = some b := by
  have hb := b.isLt
  have h1 : xvalue (hexHi b) = b.val / 16 := by
    simpa using xvalue_hexDigit ⟨b.val / 16, by omega⟩
  have h2 : xvalue (hexLo b) = b.val % 16 := by
    simpa using xvalue_hexDigit ⟨b.val % 16, by omega⟩
  have hcond : xvalue (hexHi b) < 16 ∧ xvalue (hexLo b) < 16 := by
    rw [h1, h2]; omega
  simp only [xtob, dif_pos hcond]
  congr 1
  apply Fin.ext
  simp only [h1, h2]
  omega

set_option maxRecDepth 4000 in
/-- Formatting then parsing a UUID gives it back. -/
theorem uuidParse_uuidToString (u : UUID) : uuidParse (uuidToString u) = some u := by
  have hlen : (uuidToString u).toList = uuidStringChars u := rfl
  simp only [uuidParse, hlen, uuidStringChars, List.length]
  norm_num
  simp only [uuidParse36, bytesOfPairs, xtob_hex_roundtrip]
  rfl

/-- Helper: running publisher calls from any starting state appends exactly
the submitted events and returns a nil error per call. -/
theorem runPubOps_append (p : InMemoryEventPublisher) (ops : List PubOp) :
    (runPubOps p ops).1.events = p.events ++ pubOpsEvents ops ∧
    (runPubOps p ops).2 = List.replicate ops.length none := by
  induction ops generalizing p with
  | nil => simp [runPubOps, pubOpsEvents]
  | cons op rest ih =>
    cases op with
    | pub e =>
        have h := ih ⟨p.events ++ [e]⟩
        simp [runPubOps, pubOpsEvents, InMemoryEventPublisher.Publish,
          List.replicate, h.1, h.2]
    | pubBatch es =>
        have h := ih ⟨p.events ++ es⟩
        simp [runPubOps, pubOpsEvents, InMemoryEventPublisher.PublishBatch,
          List.replicate, h.1, h.2]

/-- C9: every `Publish`/`PublishBatch` call on the in-memory publisher
returns a nil error, and after any sequence of calls starting from a fresh
publisher, `Events()` is exactly the submitted events in submission order. -/
theorem inMemoryPublisher_never_fails_ordered (ops : List PubOp) :
    (runPubOps NewInMemoryEventPublisher ops).1.Events = pubOpsEvents ops ∧
    (runPubOps NewInMemoryEventPublisher ops).2 = List.replicate ops.length none := by
  have h := runPubOps_append NewInMemoryEventPublisher ops
  exact ⟨by simpa [InMemoryEventPublisher.Events, NewInMemoryEventPublisher] using h.1, h.2⟩

/-- C1 counterexample: a session that is active and whose expiry instant
equals the current instant is reported valid by `IsValid`, although the
claim ("current time strictly before ExpiresAt") calls it invalid. -/
theorem session_isValid_at_expiry_counterexample :
    (UserSession.IsValid ⟨0, 1, uuidNil, NewSessionDeviceInfo, "", "", 0, 5, true⟩ 5 = true) ∧
    ¬((UserSession.mk 0 1 uuidNil NewSessionDeviceInfo "" "" 0 5 true).isActive = true ∧
      (5 : GoTime) < (UserSession.mk 0 1 uuidNil NewSessionDeviceInfo "" "" 0 5 true).expiresAt) := by
  refine ⟨rfl, ?_⟩
  intro h
  exact absurd h.2 (by decide)

/-- C1 (amended): `IsValid` is true exactly when the session is active and
the current time is not strictly after `ExpiresAt` (`now ≤ ExpiresAt`; at
the expiry instant itself the session still counts as valid); and a session
created with duration D is invalid at every time strictly after
creation + D. -/
theorem session_isValid_iff (s : UserSession) (now : GoTime) :
    (UserSession.IsValid s now = true ↔ (s.isActive = true ∧ now ≤ s.expiresAt)) ∧
    (∀ (userID : Int) (ip ua : String) (di : SessionDeviceInfo) (d created : Int)
        (tok : UUID), created + d < now →
        UserSession.IsValid (NewUserSessionAt userID ip ua di d created tok) now = false) := by
  constructor
  · simp [UserSession.IsValid, UserSession.IsExpired]
  · intro userID ip ua di d created tok h
    simp [UserSession.IsValid, UserSession.IsExpired, NewUserSessionAt]
    exact h

/-- C1 witness: a session created at time 0 with duration 5 is invalid at
time 6, and an active unexpired session is valid. -/
theorem session_isValid_iff_witness :
    UserSession.IsValid (NewUserSessionAt 1 "" "" NewSessionDeviceInfo 5 0 uuidNil) 6 = false ∧
    (UserSession.IsValid ⟨0, 1, uuidNil, NewSessionDeviceInfo, "", "", 0, 9, true⟩ 4 = true ↔
      ((UserSession.mk 0 1 uuidNil NewSessionDeviceInfo "" "" 0 9 true).isActive = true ∧
       (4 : GoTime) ≤ (UserSession.mk 0 1 uuidNil NewSessionDeviceInfo "" "" 0 9 true).expiresAt)) := by
  refine ⟨?_, ?_⟩
  · exact (session_isValid_iff (NewUserSessionAt 1 "" "" NewSessionDeviceInfo 5 0 uuidNil) 6).2
      1 "" "" NewSessionDeviceInfo 5 0 uuidNil (by decide)
  · exact (session_isValid_iff ⟨0, 1, uuidNil, NewSessionDeviceInfo, "", "", 0, 9, true⟩ 4).1

/-- C10: `Deactivate` clears only `isActive`; `Extend d` replaces the expiry
with `now + d` (independent of the previous expiry, so any remaining time is
discarded); neither touches the token or any other field. -/
theorem session_deactivate_extend_frame (s : UserSession) (d : Int) (now : GoTime) :
    ((s.Deactivate).isActive = false ∧
     (s.Deactivate).token = s.token ∧
     (s.Deactivate).id = s.id ∧
     (s.Deactivate).userID = s.userID ∧
     (s.Deactivate).deviceInfo = s.deviceInfo ∧
     (s.Deactivate).ipAddress = s.ipAddress ∧
     (s.Deactivate).userAgent = s.userAgent ∧
     (s.Deactivate).createdAt = s.createdAt ∧
     (s.Deactivate).expiresAt = s.expiresAt) ∧
    ((s.Extend d now).expiresAt = now + d ∧
     (s.Extend d now).token = s.token ∧
     (s.Extend d now).id = s.id ∧
     (s.Extend d now).userID = s.userID ∧
     (s.Extend d now).deviceInfo = s.deviceInfo ∧
     (s.Extend d now).ipAddress = s.ipAddress ∧
     (s.Extend d now).userAgent = s.userAgent ∧
     (s.Extend d now).createdAt = s.createdAt ∧
     (s.Extend d now).isActive = s.isActive) := by
  simp [UserSession.Deactivate, UserSession.Extend]

/-- C2: the status and role converters are fail-closed: any string outside
the closed enum sets makes `DBToDomain` fail with a `ConversionError`
(rather than succeed with a default value). -/
theorem enum_dbToDomain_fail_closed :
    (∀ s : String, s ∉ (["active", "inactive", "suspended", "pending"] : List String) →
        DefaultUserStatusConverter.DBToDomain s =
          .error ⟨"invalid user status", .str s⟩) ∧
    (∀ r : String, r ∉ (["user", "admin", "moderator"] : List String) →
        DefaultUserRoleConverter.DBToDomain r =
          .error ⟨"invalid user role", .str r⟩) := by
  constructor
  · intro s hs
    simp only [List.mem_cons, List.not_mem_nil, or_false, not_or] at hs
    have hv : UserStatus.IsValid s = false := by
      simp [UserStatus.IsValid, UserStatusActive, UserStatusInactive,
        UserStatusSuspended, UserStatusPending]
      tauto
    simp [DefaultUserStatusConverter.DBToDomain, hv]
  · intro r hr
    simp only [List.mem_cons, List.not_mem_nil, or_false, not_or] at hr
    have hv : UserRole.IsValid r = false := by
      simp [UserRole.IsValid, UserRoleUser, UserRoleAdmin, UserRoleModerator]
      tauto
    simp [DefaultUserRoleConverter.DBToDomain, hv]

/-- C2 witness: a concrete out-of-set string fails both converters. -/
theorem enum_dbToDomain_fail_closed_witness :
    DefaultUserStatusConverter.DBToDomain "bogus" =
      .error ⟨"invalid user status", .str "bogus"⟩ ∧
    DefaultUserRoleConverter.DBToDomain "bogus" =
      .error ⟨"invalid user role", .str "bogus"⟩ := by
  exact ⟨enum_dbToDomain_fail_closed.1 "bogus" (by decide),
         enum_dbToDomain_fail_closed.2 "bogus" (by decide)⟩

/-- C3: every converter round-trips: `DBToDomain (DomainToDB v)` succeeds
and returns `v`, for every UUID (SQLite string form, PostgreSQL native,
MySQL standard byte layout), every time instant (for any choice of the
library string parser), every boolean, and every valid status and role. -/
theorem converter_roundtrips :
    (∀ u : UUID, SQLiteUUIDConverter.DBToDomain (SQLiteUUIDConverter.DomainToDB u) = .ok u) ∧
    (∀ u : UUID, PostgresUUIDConverter.DBToDomain (PostgresUUIDConverter.DomainToDB u) = .ok u) ∧
    (∀ u : UUID, MySQLUUIDConverter.DBToDomain (MySQLUUIDConverter.DomainToDB u) = .ok u) ∧
    (∀ (p : String → Except ConversionError GoTime) (t : GoTime),
        SQLiteTimeConverter.DBToDomain p (SQLiteTimeConverter.DomainToDB t) = .ok t) ∧
    (∀ b : Bool, SQLiteBoolConverter.DBToDomain (SQLiteBoolConverter.DomainToDB b) = .ok b) ∧
    (∀ s : UserStatus, UserStatus.IsValid s = true →
        DefaultUserStatusConverter.DBToDomain (DefaultUserStatusConverter.DomainToDB s) = .ok s) ∧
    (∀ r : UserRole, UserRole.IsValid r = true →
        DefaultUserRoleConverter.DBToDomain (DefaultUserRoleConverter.DomainToDB r) = .ok r) := by
  refine ⟨?_, ?_, ?_, ?_, ?_, ?_, ?_⟩
  · intro u
    by_cases h : u = uuidNil
    · simp [SQLiteUUIDConverter.DomainToDB, SQLiteUUIDConverter.DBToDomain, h]
    · simp [SQLiteUUIDConverter.DomainToDB, SQLiteUUIDConverter.DBToDomain, h,
        uuidParse_uuidToString u]
  · intro u
    rfl
  · intro u
    rfl
  · intro p t
    by_cases h : t = 0
    · simp [SQLiteTimeConverter.DomainToDB, SQLiteTimeConverter.DBToDomain, h]
    · simp [SQLiteTimeConverter.DomainToDB, SQLiteTimeConverter.DBToDomain, h]
  · intro b
    rfl
  · intro s h
    simp [DefaultUserStatusConverter.DomainToDB, DefaultUserStatusConverter.DBToDomain, h]
  · intro r h
    simp [DefaultUserRoleConverter.DomainToDB, DefaultUserRoleConverter.DBToDomain, h]

/-- C3 witness: concrete round trips through each converter, including a
non-nil UUID, a nonzero instant with a parser that rejects everything, and
one valid enum value of each kind. -/
theorem converter_roundtrips_witness :
    SQLiteUUIDConverter.DBToDomain
      (SQLiteUUIDConverter.DomainToDB ⟨171, 0, 1, 2, 3, 4, 5, 6, 7, 8, 9, 10, 11, 12, 13, 255⟩) =
      .ok ⟨171, 0, 1, 2, 3, 4, 5, 6, 7, 8, 9, 10, 11, 12, 13, 255⟩ ∧
    MySQLUUIDConverter.DBToDomain
      (MySQLUUIDConverter.DomainToDB ⟨171, 0, 1, 2, 3, 4, 5, 6, 7, 8, 9, 10, 11, 12, 13, 255⟩) =
      .ok ⟨171, 0, 1, 2, 3, 4, 5, 6, 7, 8, 9, 10, 11, 12, 13, 255⟩ ∧
    SQLiteTimeConverter.DBToDomain (fun s => .error ⟨"unused", .str s⟩)
      (SQLiteTimeConverter.DomainToDB 42) = .ok 42 ∧
    SQLiteBoolConverter.DBToDomain (SQLiteBoolConverter.DomainToDB true) = .ok true ∧
    DefaultUserStatusConverter.DBToDomain
      (DefaultUserStatusConverter.DomainToDB "pending") = .ok "pending" ∧
    DefaultUserRoleConverter.DBToDomain
      (DefaultUserRoleConverter.DomainToDB "moderator") = .ok "moderator" := by
  refine ⟨converter_roundtrips.1 _, converter_roundtrips.2.2.1 _,
    converter_roundtrips.2.2.2.1 _ 42, converter_roundtrips.2.2.2.2.1 true,
    converter_roundtrips.2.2.2.2.2.1 "pending" (by decide),
    converter_roundtrips.2.2.2.2.2.2 "moderator" (by decide)⟩

/-- C5: `NewEmail` succeeds on every string passing the email-shape check
and returns `lowercase(trim(input))`; on every string failing the check it
fails with the `ValidationError` on field "email". -/
theorem newEmail_spec (e : String) :
    (isValidEmail e = true → NewEmail e = .ok (goToLower (goTrimSpace e))) ∧
    (isValidEmail e = false → NewEmail e = .error ErrInvalidEmail) ∧
    ErrInvalidEmail = .validation "email" "must be a valid email address" := by
  refine ⟨fun h => ?_, fun h => ?_, rfl⟩ <;> simp [NewEmail, h]

/-- C5 witness: a mixed-case valid email normalizes; a malformed string is
rejected with the email validation error. -/
theorem newEmail_spec_witness :
    NewEmail "Test@Example.com" = .ok (goToLower (goTrimSpace "Test@Example.com")) ∧
    NewEmail "invalid-email" = .error ErrInvalidEmail := by
  exact ⟨(newEmail_spec "Test@Example.com").1 (by decide),
         (newEmail_spec "invalid-email").2.1 (by decide)⟩

/-- C6 counterexample: `NewUsername` checks the length of the raw input, not
of the trimmed result.  This 51-byte string trims to 3 bytes — inside
[3,50] — yet is rejected. -/
theorem newUsername_trimmed_length_counterexample :
    NewUsername wLongUsername = .error ErrInvalidUsername ∧
    3 ≤ goLen (goTrimSpace wLongUsername) ∧
    goLen (goTrimSpace wLongUsername) ≤ 50 := by
  refine ⟨?_, by decide, by decide⟩
  rfl

/-- C6 (amended): `NewUsername` fails with the username validation error
exactly when the raw (untrimmed) byte length is outside [3,50]; when the
raw length is in [3,50] it succeeds and returns the trimmed string (whose
own length may fall below 3). -/
theorem newUsername_raw_length_spec (s : String) :
    ((goLen s < 3 ∨ goLen s > 50) → NewUsername s = .error ErrInvalidUsername) ∧
    ((3 ≤ goLen s ∧ goLen s ≤ 50) → NewUsername s = .ok (goTrimSpace s)) := by
  constructor <;> intro h <;> simp [NewUsername] <;> omega

/-- C6 witness: "alice" (5 bytes) is accepted and trimmed; "ab" (2 bytes)
is rejected. -/
theorem newUsername_raw_length_spec_witness :
    NewUsername "alice" = .ok (goTrimSpace "alice") ∧
    NewUsername "ab" = .error ErrInvalidUsername := by
  exact ⟨(newUsername_raw_length_spec "alice").2 (by decide),
         (newUsername_raw_length_spec "ab").1 (by decide)⟩

/-- C8: every mutator that performs its mutation stamps `updatedAt` with the
time of the call (hence `updatedAt` never moves backwards when the call time
is not earlier than the stored one), and `ChangeStatus`/`ChangeRole` with an
invalid target return `ErrInvalidUserStatus`/`ErrInvalidUserRole` leaving
the user entirely unchanged. -/
theorem user_mutators_spec (u : User) (now : GoTime) :
    (∀ st : UserStatus, st.IsValid = true →
        (u.ChangeStatus st now).1 = none ∧
        (u.ChangeStatus st now).2.updatedAt = now ∧
        (u.ChangeStatus st now).2.status = st) ∧
    (∀ st : UserStatus, st.IsValid = false →
        u.ChangeStatus st now = (some ErrInvalidUserStatus, u)) ∧
    (∀ r : UserRole, r.IsValid = true →
        (u.ChangeRole r now).1 = none ∧
        (u.ChangeRole r now).2.updatedAt = now ∧
        (u.ChangeRole r now).2.role = r) ∧
    (∀ r : UserRole, r.IsValid = false →
        u.ChangeRole r now = (some ErrInvalidUserRole, u)) ∧
    (∀ fn ln md tg, (u.UpdateProfile fn ln md tg now).2.updatedAt = now) ∧
    ((u.Verify now).updatedAt = now) ∧
    ((u.RecordLogin now).updatedAt = now) ∧
    (∀ tag, u.tags.contains tag = false → (u.AddTag tag now).updatedAt = now) ∧
    (∀ tag, u.tags.contains tag = true → (u.RemoveTag tag now).updatedAt = now) ∧
    (u.updatedAt ≤ now →
      (∀ st, u.updatedAt ≤ (u.ChangeStatus st now).2.updatedAt) ∧
      (∀ r, u.updatedAt ≤ (u.ChangeRole r now).2.updatedAt) ∧
      (∀ fn ln md tg, u.updatedAt ≤ (u.UpdateProfile fn ln md tg now).2.updatedAt) ∧
      u.updatedAt ≤ (u.Verify now).updatedAt ∧
      u.updatedAt ≤ (u.RecordLogin now).updatedAt ∧
      (∀ tag, u.updatedAt ≤ (u.AddTag tag now).updatedAt) ∧
      (∀ tag, u.updatedAt ≤ (u.RemoveTag tag now).updatedAt)) := by
  refine ⟨fun st h => ?_, fun st h => ?_, fun r h => ?_, fun r h => ?_,
      fun fn ln md tg => ?_, ?_, ?_, fun tag h => ?_, fun tag h => ?_, fun h => ?_⟩
  · simp [User.ChangeStatus, h]
  · simp [User.ChangeStatus, h]
  · simp [User.ChangeRole, h]
  · simp [User.ChangeRole, h]
  · cases fn <;> cases ln <;> cases md <;> cases tg <;> simp [User.UpdateProfile]
  · simp [User.Verify]
  · simp [User.RecordLogin]
  · have hm : ¬ tag ∈ u.tags := by simpa using h
    simp [User.AddTag, hm]
  · have hm : tag ∈ u.tags := by simpa using h
    simp [User.RemoveTag, hm]
  · refine ⟨fun st => ?_, fun r => ?_, fun fn ln md tg => ?_, ?_, ?_, fun tag => ?_, fun tag => ?_⟩
    · by_cases hv : UserStatus.IsValid st <;> simp [User.ChangeStatus, hv, h]
    · by_cases hv : UserRole.IsValid r <;> simp [User.ChangeRole, hv, h]
    · cases fn <;> cases ln <;> cases md <;> cases tg <;> simp [User.UpdateProfile, h]
    · simp [User.Verify, h]
    · simp [User.RecordLogin, h]
    · by_cases hv : tag ∈ u.tags <;> simp [User.AddTag, hv, h]
    · by_cases hv : tag ∈ u.tags <;> simp [User.RemoveTag, hv, h]

/-- C8 witness: concrete mutations on a concrete user at time 7. -/
theorem user_mutators_spec_witness :
    ((wUser.ChangeStatus UserStatusSuspended 7).1 = none ∧
     (wUser.ChangeStatus UserStatusSuspended 7).2.updatedAt = 7 ∧
     (wUser.ChangeStatus UserStatusSuspended 7).2.status = UserStatusSuspended) ∧
    (wUser.ChangeStatus "bogus" 7 = (some ErrInvalidUserStatus, wUser)) ∧
    (wUser.ChangeRole "bogus" 7 = (some ErrInvalidUserRole, wUser)) ∧
    (wUser.AddTag "y" 7).updatedAt = 7 ∧
    (wUser.RemoveTag "x" 7).updatedAt = 7 ∧
    wUser.updatedAt ≤ (wUser.Verify 7).updatedAt := by
  have h := user_mutators_spec wUser 7
  exact ⟨h.1 UserStatusSuspended (by decide), h.2.1 "bogus" (by decide),
    h.2.2.2.1 "bogus" (by decide),
    h.2.2.2.2.2.2.2.1 "y" (by decide),
    h.2.2.2.2.2.2.2.2.1 "x" (by decide),
    (h.2.2.2.2.2.2.2.2.2 (by decide)).2.2.2.1⟩

/-- C4: when credential verification succeeds but the user is not active,
`AuthenticateUser` creates no session, publishes one `UserLoginFailed`
event carrying reason `"inactive_account"` (distinct from the
`"unknown"` reason published on credential mismatch), and returns
`ErrAccountSuspended` if the status is suspended and `ErrAccountInactive`
otherwise — both `AuthorizationError`s, unlike the `AuthenticationError`
of the mismatch case. -/
theorem authenticateUser_inactive_account_spec :
    (∀ (repo : UserRepo) (srepo : SessionRepo)
        (email password ip ua : String) (now : GoTime) (fid : String) (tok : UUID)
        (em : String) (user : User),
        NewEmail email = .ok em →
        repo.verifyCredentials em password = .ok user →
        user.IsActive = false →
        (AuthenticateUser repo srepo email password ip ua now fid tok).2.sessionCreates = [] ∧
        (AuthenticateUser repo srepo email password ip ua now fid tok).2.events =
          [EventsUserLoginFailed fid now (uuidToString user.uuid) ip ua "inactive_account"] ∧
        (AuthenticateUser repo srepo email password ip ua now fid tok).1 =
          .error (if user.status = UserStatusSuspended then ErrAccountSuspended
                  else ErrAccountInactive)) ∧
    (∀ (repo : UserRepo) (srepo : SessionRepo)
        (email password ip ua : String) (now : GoTime) (fid : String) (tok : UUID)
        (em : String) (e : DomainError),
        NewEmail email = .ok em →
        repo.verifyCredentials em password = .error e →
        (AuthenticateUser repo srepo email password ip ua now fid tok).2.events =
          [EventsUserLoginFailed fid now "" ip ua "unknown"] ∧
        (AuthenticateUser repo srepo email password ip ua now fid tok).1 =
          .error ErrInvalidCredentials) ∧
    (∀ (fid : String) (now : GoTime) (uid ip ua : String),
        (EventsUserLoginFailed fid now uid ip ua "inactive_account").data ≠
        (EventsUserLoginFailed fid now uid ip ua "unknown").data) ∧
    ErrAccountSuspended ≠ ErrAccountInactive ∧
    DomainError.isAuthorization ErrAccountSuspended = true ∧
    DomainError.isAuthorization ErrAccountInactive = true ∧
    DomainError.isAuthentication ErrInvalidCredentials = true ∧
    DomainError.isAuthorization ErrInvalidCredentials = false := by
  refine ⟨?_, ?_, ?_, by decide, rfl, rfl, rfl, rfl⟩
  · intro repo srepo email password ip ua now fid tok em user h0 h1 h2
    by_cases hs : user.status = UserStatusSuspended <;>
      simp [AuthenticateUser, h0, h1, h2, hs, noEffects]
  · intro repo srepo email password ip ua now fid tok em e h0 h1
    simp [AuthenticateUser, h0, h1, noEffects]
  · intro fid now uid ip ua
    simp [EventsUserLoginFailed, NewUserEvent]

/-- C4 witness: authenticating a suspended user with a repository that
accepts the credentials. -/
theorem authenticateUser_inactive_account_spec_witness :
    (AuthenticateUser (wRepo wSuspendedUser) wSessionRepo "a@b.com" "pw" "ip" "ua" 9 "e1"
        uuidNil).2.sessionCreates = [] ∧
    (AuthenticateUser (wRepo wSuspendedUser) wSessionRepo "a@b.com" "pw" "ip" "ua" 9 "e1"
        uuidNil).2.events =
      [EventsUserLoginFailed "e1" 9 (uuidToString wSuspendedUser.uuid) "ip" "ua"
        "inactive_account"] ∧
    (AuthenticateUser (wRepo wSuspendedUser) wSessionRepo "a@b.com" "pw" "ip" "ua" 9 "e1"
        uuidNil).1 =
      .error (if wSuspendedUser.status = UserStatusSuspended then ErrAccountSuspended
              else ErrAccountInactive) := by
  exact authenticateUser_inactive_account_spec.1 (wRepo wSuspendedUser) wSessionRepo
    "a@b.com" "pw" "ip" "ua" 9 "e1" uuidNil "a@b.com" wSuspendedUser rfl rfl rfl

/-- C7: a successful `CreateUser` publishes exactly one event, of type
`user.created`, whose `UserID` is the created entity's UUID; a successful
`UpdateUser` whose request sets none of the optional fields publishes no
event. -/
theorem createUser_updateUser_event_emission :
    (∀ (repo : UserRepo) (validator : UserValidator) (req : CreateUserRequest)
        (now : GoTime) (fu : UUID) (fid : String) (user : User) (eff : ServiceEffects),
        CreateUser repo validator req now fu fid = (.ok user, eff) →
        eff.events.length = 1 ∧
        ∀ ev ∈ eff.events, ev.type = "user.created" ∧ ev.userID = uuidToString user.uuid) ∧
    (∀ (repo : UserRepo) (validator : UserValidator) (req : UpdateUserRequest)
        (now : GoTime) (fid : String) (user : User) (eff : ServiceEffects),
        req.firstName = none → req.lastName = none →
        req.metadata = none → req.tags = none →
        UpdateUser repo validator req now fid = (.ok user, eff) →
        eff.events = []) := by
  constructor
  · intro repo validator req now fu fid user eff h
    simp only [CreateUser] at h
    repeat' split at h
    all_goals simp_all [noEffects, EventsUserCreated, NewUserEvent]
    obtain ⟨hu, he⟩ := h
    subst hu
    subst he
    simp
  · intro repo validator req now fid user eff h1 h2 h3 h4 h
    simp only [UpdateUser, h1, h2, h3, h4] at h
    repeat' split at h
    all_goals simp_all [noEffects]
    obtain ⟨hu, he⟩ := h
    subst he
    rfl

/-- C7 witness: a concrete successful create emits one `user.created` event
with the entity's UUID; a concrete empty update emits none. -/
theorem createUser_updateUser_event_emission_witness :
    CreateUser wFailRepo wValidator wCreateReq 3 uuidNil "e2" =
      (.ok wCreatedUser, wCreateEff) ∧
    wCreateEff.events.length = 1 ∧
    (∀ ev ∈ wCreateEff.events,
        ev.type = "user.created" ∧ ev.userID = uuidToString wCreatedUser.uuid) ∧
    UpdateUser (wRepo wUser) wValidator wUpdateReq 3 "e3" = (.ok wUser, wUpdateEff) ∧
    wUpdateEff.events = [] := by
  have hc : CreateUser wFailRepo wValidator wCreateReq 3 uuidNil "e2" =
      (.ok wCreatedUser, wCreateEff) := by rfl
  have hu : UpdateUser (wRepo wUser) wValidator wUpdateReq 3 "e3" =
      (.ok wUser, wUpdateEff) := by rfl
  refine ⟨hc, ?_, ?_, hu, ?_⟩
  · exact (createUser_updateUser_event_emission.1 wFailRepo wValidator wCreateReq
      3 uuidNil "e2" wCreatedUser wCreateEff hc).1
  · exact (createUser_updateUser_event_emission.1 wFailRepo wValidator wCreateReq
      3 uuidNil "e2" wCreatedUser wCreateEff hc).2
  · exact createUser_updateUser_event_emission.2 (wRepo wUser) wValidator wUpdateReq
      3 "e3" wUser wUpdateEff rfl rfl rfl rfl hu
